import Mathlib

/-!
Shallow embedding of `src/promptstudio/main.py`: the session, entitlement,
usage-metering, registration/login and Stripe checkout/webhook logic.

The two Python module-level dicts `users_db` and `sessions` become an
explicit `AppState` record threaded through every operation.  Python dicts
are modelled as association lists with first-match lookup; Python
truthiness on strings (`if session_id:` treats the empty string like
`None`) is modelled by explicit emptiness tests wherever the source uses a
truthiness test.  External effects (random token generation, the Stripe
library calls) are modelled by passing their outcome as a parameter.
-/

set_option autoImplicit false

namespace PromptStudio

namespace alist

/-- First-match lookup in an association list (Python `d[k]` / `k in d`). -/
def lookup {α : Type} : List (String × α) → String → Option α
  | [], _ => none
  | (k, v) :: t, key => if k = key then some v else lookup t key

/-- Update the first binding of `key`, or append one (Python `d[k] = v`). -/
def insert {α : Type} : List (String × α) → String → α → List (String × α)
  | [], key, val => [(key, val)]
  | (k, v) :: t, key, val =>
      if k = key then (key, val) :: t else (k, v) :: insert t key val

/-- Remove every binding of `key` (Python `del d[k]`, keys being unique). -/
def erase {α : Type} : List (String × α) → String → List (String × α)
  | [], _ => []
  | (k, v) :: t, key => if k = key then erase t key else (k, v) :: erase t key

end alist

/-- A record of `users_db`: `{"password": ..., "is_pro": ...}`. -/
structure UserRec where
  password : String
  is_pro : Bool
  deriving DecidableEq, Repr

/-- The new-format session record: `{"username": ..., "counts": {...}}`. -/
structure SessionData where
  username : String
  counts : List (String × Nat)
  deriving DecidableEq, Repr

/-- A value of the `sessions` dict: either the current dict format or the
legacy bare-username format tolerated for backward compatibility. -/
inductive SessionVal where
  | dict (d : SessionData)
  | legacy (username : String)
  deriving DecidableEq, Repr

/-- The module-level mutable state: `users_db` and `sessions`. -/
structure AppState where
  users_db : List (String × UserRec)
  sessions : List (String × SessionVal)
  deriving DecidableEq, Repr

/-- Python `counts.get(tool_name, 0)`. -/
def countsLookup (l : List (String × Nat)) (tool : String) : Nat :=
  (alist.lookup l tool).getD 0

/-- `create_session`: the random `secrets.token_urlsafe(32)` token is passed
in as `token`; inserts a fresh dict-format record with empty counts. -/
def create_session (username token : String) (s : AppState) : String × AppState :=
  (token,
   { s with sessions :=
       alist.insert s.sessions token (.dict { username := username, counts := [] }) })

/-- `get_username_from_session`: pure read; `if session_id and session_id in
sessions` treats `None` and `""` alike (Python truthiness). -/
def get_username_from_session (session_id : Option String) (s : AppState) : Option String :=
  match session_id with
  | none => none
  | some t =>
      if t = "" then none
      else
        match alist.lookup s.sessions t with
        | some (.dict d) => some d.username
        | some (.legacy u) => some u
        | none => none

/-- `get_session_data`: returns the session record; upgrades a legacy record
to dict format in place, so it returns the possibly-mutated state too. -/
def get_session_data (session_id : Option String) (s : AppState) :
    Option SessionData × AppState :=
  match session_id with
  | none => (none, s)
  | some t =>
      if t = "" then (none, s)
      else
        match alist.lookup s.sessions t with
        | some (.dict d) => (some d, s)
        | some (.legacy u) =>
            let d : SessionData := { username := u, counts := [] }
            (some d, { s with sessions := alist.insert s.sessions t (.dict d) })
        | none => (none, s)

/-- `is_user_pro`: `if username and username in users_db` then the record's
`is_pro` flag, else `False`. -/
def is_user_pro (username : Option String) (s : AppState) : Bool :=
  match username with
  | none => false
  | some u =>
      if u = "" then false
      else
        match alist.lookup s.users_db u with
        | some rec => rec.is_pro
        | none => false

/-- `increment_usage`: bumps the per-tool counter of the session (default 0
before the bump) and returns the new count; returns 0 untouched when the
session id is falsy or unknown. -/
def increment_usage (session_id : Option String) (tool_name : String) (s : AppState) :
    Nat × AppState :=
  match session_id with
  | none => (0, s)
  | some t =>
      if t = "" then (0, s)
      else
        match get_session_data (some t) s with
        | (none, s1) => (0, s1)
        | (some sd, s1) =>
            let newCount := countsLookup sd.counts tool_name + 1
            let sd' := { sd with counts := alist.insert sd.counts tool_name newCount }
            (newCount, { s1 with sessions := alist.insert s1.sessions t (.dict sd') })

/-- `get_usage_count`: reads the counter (default 0); goes through
`get_session_data`, so it can upgrade a legacy record as a side effect. -/
def get_usage_count (session_id : Option String) (tool_name : String) (s : AppState) :
    Nat × AppState :=
  match get_session_data session_id s with
  | (some sd, s1) => (countsLookup sd.counts tool_name, s1)
  | (none, s1) => (0, s1)

/-- Decision of `check_usage_limit`: `None` (proceed) is `Allowed`; the
rendered `limit_reached.html` response is `LimitReached`. -/
inductive Decision where
  | Allowed
  | LimitReached
  deriving DecidableEq, Repr

/-- `check_usage_limit`: pro users short-circuit to `Allowed` with no state
access; otherwise read the counter, refuse at 3 or more, else increment. -/
def check_usage_limit (session_id : Option String) (username tool_name : String)
    (s : AppState) : Decision × AppState :=
  if is_user_pro (some username) s then (.Allowed, s)
  else
    match get_usage_count session_id tool_name s with
    | (cnt, s1) =>
        if 3 ≤ cnt then (.LimitReached, s1)
        else (.Allowed, (increment_usage session_id tool_name s1).2)

/-- `delete_session`: `if session_id and session_id in sessions: del ...`. -/
def delete_session (session_id : Option String) (s : AppState) : AppState :=
  match session_id with
  | none => s
  | some t =>
      if t = "" then s
      else if (alist.lookup s.sessions t).isSome then
        { s with sessions := alist.erase s.sessions t }
      else s

/-- `require_login`: `get_current_username` then `if not username: redirect`;
`none` stands for the redirect (truthiness: the empty username redirects). -/
def require_login (session_id : Option String) (s : AppState) : Option String :=
  match get_username_from_session session_id s with
  | some u => if u = "" then none else some u
  | none => none

/-- Response of `login_post`: the redirect to `/dashboard` carrying the new
session cookie, or the re-rendered login form with its error string. -/
inductive LoginResult where
  | success (redirectUrl cookieToken : String)
  | failure (error : String)
  deriving DecidableEq, Repr

/-- `login_post`: `if username in users_db and users_db[username]["password"]
== password` create a session and redirect, else one shared error branch. -/
def login_post (username password newToken : String) (s : AppState) :
    LoginResult × AppState :=
  match alist.lookup s.users_db username with
  | some rec =>
      if rec.password = password then
        match create_session username newToken s with
        | (tok, s1) => (.success "/dashboard" tok, s1)
      else (.failure "Invalid username or password", s)
  | none => (.failure "Invalid username or password", s)

/-- Response of `register_post`: the re-rendered form with an error, or the
redirect to `/login`. -/
inductive RegisterResult where
  | error (msg : String)
  | redirect (url : String)
  deriving DecidableEq, Repr

/-- `register_post`: duplicate name re-renders the form with an error and
touches nothing; otherwise inserts `{"password": ..., "is_pro": False}`. -/
def register_post (username password : String) (s : AppState) :
    RegisterResult × AppState :=
  if (alist.lookup s.users_db username).isSome then
    (.error "Username already exists", s)
  else
    (.redirect "/login",
     { s with users_db :=
         alist.insert s.users_db username { password := password, is_pro := false } })

/-- The parsed Stripe event as the webhook reads it: its `type` string and,
from `event.data.object`, the two places an email may live.  `none` models a
missing field (`dict.get` returning `None`); `some ""` a present-but-empty
string, which Python truthiness treats like a missing one. -/
structure StripeEvent where
  type : String
  customer_email : Option String
  customer_details_email : Option String
  deriving DecidableEq, Repr

/-- Outcome of `stripe.Webhook.construct_event` (external library call):
`ValueError` (malformed payload), `SignatureVerificationError`, or a parsed
event.  The webhook handler is a function of this outcome. -/
inductive VerifyResult where
  | malformed
  | badSignature
  | ok (event : StripeEvent)
  deriving DecidableEq, Repr

/-- A `JSONResponse` as the webhook returns it: HTTP status plus body tag. -/
structure WebhookResponse where
  status : Nat
  body : String
  deriving DecidableEq, Repr

/-- In-place `users_db[name]["is_pro"] = True` on the first binding of
`name`, keeping the password. -/
def setProTrue : List (String × UserRec) → String → List (String × UserRec)
  | [], _ => []
  | (k, v) :: t, name =>
      if k = name then (k, { v with is_pro := true }) :: t
      else (k, v) :: setProTrue t name

/-- The webhook's entitlement upgrade, `users_db[email]["is_pro"] = True`
guarded by `email in users_db`: a no-op when the name is absent. -/
def setEntitlementPaid (name : String) (s : AppState) : AppState :=
  if (alist.lookup s.users_db name).isSome then
    { s with users_db := setProTrue s.users_db name }
  else s

/-- Python `a or b` on optional strings: `a` unless it is falsy (`None` or
the empty string), in which case `b`. -/
def pyOr (a b : Option String) : Option String :=
  match a with
  | some str => if str = "" then b else some str
  | none => b

/-- `stripe_webhook`: 400 on a malformed payload or bad signature (state
untouched); otherwise, on a `checkout.session.completed` event, extract
`customer_email or customer_details.email` and, when truthy and registered,
set that user's `is_pro`; always acknowledge with 200. -/
def stripe_webhook (vr : VerifyResult) (s : AppState) : WebhookResponse × AppState :=
  match vr with
  | .malformed => ({ status := 400, body := "Invalid payload" }, s)
  | .badSignature => ({ status := 400, body := "Invalid signature" }, s)
  | .ok ev =>
      let s' :=
        if ev.type = "checkout.session.completed" then
          match pyOr ev.customer_email ev.customer_details_email with
          | some email => if email = "" then s else setEntitlementPaid email s
          | none => s
        else s
      ({ status := 200, body := "success" }, s')

/-- Outcome of the external `stripe.checkout.Session.create` call: the
minted checkout URL, or a raised exception's message. -/
inductive StripeOutcome where
  | ok (url : String)
  | err (msg : String)
  deriving DecidableEq, Repr

/-- Response of `create_checkout_session`. -/
inductive CheckoutResult where
  | redirect (url : String)
  | jsonError (errMsg : String) (status : Nat)
  | checkoutUrl (url : String)
  deriving DecidableEq, Repr

/-- `create_checkout_session`: require login, then fail with a 500 JSON
error when `STRIPE_PRICE_ID` is unset — before any Stripe call — else
delegate to Stripe.  The boolean records whether Stripe was contacted. -/
def create_checkout_session (session_id : Option String) (price_id : Option String)
    (stripeCall : StripeOutcome) (s : AppState) : CheckoutResult × Bool :=
  match require_login session_id s with
  | none => (.redirect "/", false)
  | some _ =>
      match price_id with
      | none => (.jsonError "PRICE_ID is missing in environment" 500, false)
      | some _ =>
          match stripeCall with
          | .ok url => (.checkoutUrl url, true)
          | .err msg => (.jsonError msg 500, true)

/-- Repeated calls of `check_usage_limit` with the same cookie, username and
tool: the state after `n` calls. -/
def iterCheck (session_id : Option String) (username tool_name : String) :
    Nat → AppState → AppState
  | 0, s => s
  | n + 1, s =>
      (check_usage_limit session_id username tool_name
        (iterCheck session_id username tool_name n s)).2

/-- One state-mutating entry point of the program, with the external inputs
(form fields, cookie, fresh random token, Stripe outcomes) as payload. -/
inductive Op where
  | opCreateSession (username token : String)
  | opLogin (username password newToken : String)
  | opRegister (username password : String)
  | opLogout (session_id : Option String)
  | opGetSessionData (session_id : Option String)
  | opGetUsageCount (session_id : Option String) (tool : String)
  | opIncrementUsage (session_id : Option String) (tool : String)
  | opCheckUsageLimit (session_id : Option String) (username tool : String)
  | opCheckout (session_id price_id : Option String) (call : StripeOutcome)
  | opWebhook (vr : VerifyResult)
  deriving DecidableEq, Repr

/-- The state transition each entry point performs (checkout never writes
the stores). -/
def applyOp : Op → AppState → AppState
  | .opCreateSession u tok, s => (create_session u tok s).2
  | .opLogin u p tok, s => (login_post u p tok s).2
  | .opRegister u p, s => (register_post u p s).2
  | .opLogout sid, s => delete_session sid s
  | .opGetSessionData sid, s => (get_session_data sid s).2
  | .opGetUsageCount sid tool, s => (get_usage_count sid tool s).2
  | .opIncrementUsage sid tool, s => (increment_usage sid tool s).2
  | .opCheckUsageLimit sid u tool, s => (check_usage_limit sid u tool s).2
  | .opCheckout _ _ _, s => s
  | .opWebhook vr, s => (stripe_webhook vr s).2

/-- The state after a sequence of entry-point calls. -/
def runOps (ops : List Op) (s : AppState) : AppState :=
  ops.foldl (fun st op => applyOp op st) s

/-- A free registered user, for concrete evaluations. -/
def demoUserFree : UserRec := { password := "pw", is_pro := false }

/-- A paid registered user, for concrete evaluations. -/
def demoUserPaid : UserRec := { password := "pw2", is_pro := true }

/-- A small concrete state: a free user `alice` with session `tok` and a
paid user `bob` with session `tokB`, both with empty counters. -/
def demoState : AppState :=
  { users_db := [("alice", demoUserFree), ("bob", demoUserPaid)],
    sessions := [("tok", .dict { username := "alice", counts := [] }),
                 ("tokB", .dict { username := "bob", counts := [] })] }

/-- The state after a free-tier allowed call: the session's record is
rewritten with the tool's counter bumped (as `increment_usage` leaves it). -/
def bumpSession (s : AppState) (t : String) (d : SessionData) (tool : String) : AppState :=
  { s with
      sessions :=
        alist.insert s.sessions t
          (.dict { d with
              counts := alist.insert d.counts tool (countsLookup d.counts tool + 1) }) }

/-! ## Association-list lemmas -/

theorem alist.lookup_insert_self {α : Type} (l : List (String × α)) (k : String) (v : α) :
    lookup (insert l k v) k = some v := by
  induction l with
  | nil => simp [insert, lookup]
  | cons hd tl ih =>
      by_cases h : hd.1 = k <;> simp [insert, lookup, h, ih]

theorem alist.lookup_insert_ne {α : Type} (l : List (String × α)) (k x : String) (v : α)
    (hx : x ≠ k) : lookup (insert l k v) x = lookup l x := by
  have hkx : ¬ (k = x) := fun h => hx h.symm
  induction l with
  | nil => simp [insert, lookup, hkx]
  | cons hd tl ih =>
      by_cases h : hd.1 = k
      · simp [insert, lookup, h, hkx]
      · by_cases h2 : hd.1 = x <;> simp [insert, lookup, h, h2, ih, hkx, hx]

theorem alist.lookup_erase_self {α : Type} (l : List (String × α)) (k : String) :
    lookup (erase l k) k = none := by
  induction l with
  | nil => simp [erase, lookup]
  | cons hd tl ih =>
      by_cases h : hd.1 = k <;> simp [erase, lookup, h, ih]

theorem alist.lookup_erase_ne {α : Type} (l : List (String × α)) (k x : String)
    (hx : x ≠ k) : lookup (erase l k) x = lookup l x := by
  have hkx : ¬ (k = x) := fun h => hx h.symm
  induction l with
  | nil => simp [erase, lookup]
  | cons hd tl ih =>
      by_cases h : hd.1 = k
      · have hdx : ¬ (hd.1 = x) := by rw [h]; exact hkx
        simp [erase, lookup, h, ih, hdx, hkx]
      · simp [erase, lookup, h, ih]

/-! ## Helper lemmas about the embedded operations -/

theorem lookup_setProTrue_self (db : List (String × UserRec)) (name : String) :
    alist.lookup (setProTrue db name) name
      = (alist.lookup db name).map (fun r => { r with is_pro := true }) := by
  induction db with
  | nil => simp [setProTrue, alist.lookup]
  | cons hd tl ih =>
      obtain ⟨k, v⟩ := hd
      by_cases h : k = name <;> simp [setProTrue, alist.lookup, h, ih]

theorem lookup_setProTrue_ne (db : List (String × UserRec)) (name x : String)
    (hx : x ≠ name) :
    alist.lookup (setProTrue db name) x = alist.lookup db x := by
  have hnx : ¬ (name = x) := fun h => hx h.symm
  induction db with
  | nil => simp [setProTrue]
  | cons hd tl ih =>
      obtain ⟨k, v⟩ := hd
      by_cases h : k = name
      · have hkx : ¬ (k = x) := by rw [h]; exact hnx
        simp [setProTrue, alist.lookup, h, hkx, hnx]
      · by_cases h2 : k = x <;> simp [setProTrue, alist.lookup, h, h2, ih, hx]

theorem setProTrue_idem (db : List (String × UserRec)) (name : String) :
    setProTrue (setProTrue db name) name = setProTrue db name := by
  induction db with
  | nil => simp [setProTrue]
  | cons hd tl ih =>
      obtain ⟨k, v⟩ := hd
      by_cases h : k = name <;> simp [setProTrue, h, ih]

theorem sessions_setEntitlementPaid (name : String) (s : AppState) :
    (setEntitlementPaid name s).sessions = s.sessions := by
  unfold setEntitlementPaid
  split <;> rfl

theorem users_db_get_session_data (sid : Option String) (s : AppState) :
    (get_session_data sid s).2.users_db = s.users_db := by
  unfold get_session_data
  repeat' split
  all_goals rfl

theorem users_db_increment_usage (sid : Option String) (tool : String) (s : AppState) :
    (increment_usage sid tool s).2.users_db = s.users_db := by
  unfold increment_usage
  split
  · rfl
  next t =>
    split
    · rfl
    · split
      next s1 heq =>
        have h := users_db_get_session_data (some t) s
        rw [heq] at h
        exact h
      next sd s1 heq =>
        have h := users_db_get_session_data (some t) s
        rw [heq] at h
        simpa using h

theorem users_db_get_usage_count (sid : Option String) (tool : String) (s : AppState) :
    (get_usage_count sid tool s).2.users_db = s.users_db := by
  unfold get_usage_count
  split
  next sd s1 heq =>
    have h := users_db_get_session_data sid s
    rw [heq] at h
    exact h
  next s1 heq =>
    have h := users_db_get_session_data sid s
    rw [heq] at h
    exact h

theorem users_db_check_usage_limit (sid : Option String) (username tool : String)
    (s : AppState) :
    (check_usage_limit sid username tool s).2.users_db = s.users_db := by
  unfold check_usage_limit
  split
  · rfl
  · split
    next cnt s1 heq =>
      have h1 := users_db_get_usage_count sid tool s
      rw [heq] at h1
      split
      · exact h1
      · simpa using (users_db_increment_usage sid tool s1).trans h1

theorem users_db_delete_session (sid : Option String) (s : AppState) :
    (delete_session sid s).users_db = s.users_db := by
  unfold delete_session
  repeat' split
  all_goals rfl

theorem users_db_login_post (username password newToken : String) (s : AppState) :
    (login_post username password newToken s).2.users_db = s.users_db := by
  unfold login_post
  cases h : alist.lookup s.users_db username with
  | none => rfl
  | some rec =>
      by_cases hp : rec.password = password <;> simp [h, hp, create_session]

theorem is_user_pro_congr (u : Option String) (s1 s2 : AppState)
    (h : s1.users_db = s2.users_db) : is_user_pro u s1 = is_user_pro u s2 := by
  cases u <;> simp [is_user_pro, h]

theorem check_step_free (t username tool : String) (s : AppState) (d : SessionData)
    (ht : ¬ (t = ""))
    (hsess : alist.lookup s.sessions t = some (.dict d))
    (hfree : is_user_pro (some username) s = false) :
    (countsLookup d.counts tool < 3 →
      check_usage_limit (some t) username tool s = (.Allowed, bumpSession s t d tool))
    ∧ (3 ≤ countsLookup d.counts tool →
        check_usage_limit (some t) username tool s = (.LimitReached, s)) := by
  have hgsd : get_session_data (some t) s = (some d, s) := by
    simp [get_session_data, ht, hsess]
  have hguc : get_usage_count (some t) tool s = (countsLookup d.counts tool, s) := by
    simp [get_usage_count, hgsd]
  have hinc : increment_usage (some t) tool s
      = (countsLookup d.counts tool + 1, bumpSession s t d tool) := by
    simp [increment_usage, ht, hgsd, bumpSession]
  constructor
  · intro hlt
    have h3 : ¬ (3 ≤ countsLookup d.counts tool) := by omega
    simp [check_usage_limit, hfree, hguc, h3, hinc]
  · intro hge
    simp [check_usage_limit, hfree, hguc, hge]

theorem iterCheck_free_inv (t username tool : String) (s : AppState) (d : SessionData)
    (ht : ¬ (t = ""))
    (hsess : alist.lookup s.sessions t = some (.dict d))
    (hfree : is_user_pro (some username) s = false)
    (hcount : countsLookup d.counts tool = 0) :
    ∀ n : Nat, ∃ C : List (String × Nat),
      alist.lookup (iterCheck (some t) username tool n s).sessions t
        = some (.dict { username := d.username, counts := C })
      ∧ countsLookup C tool = min n 3
      ∧ (iterCheck (some t) username tool n s).users_db = s.users_db := by
  intro n
  induction n with
  | zero =>
      refine ⟨d.counts, ?_, ?_, rfl⟩
      · simpa using hsess
      · simpa using hcount
  | succ n ih =>
      obtain ⟨C, h1, h2, h3⟩ := ih
      have hfree' : is_user_pro (some username)
          (iterCheck (some t) username tool n s) = false := by
        rw [is_user_pro_congr (some username) _ s h3]; exact hfree
      have hstep := check_step_free t username tool
        (iterCheck (some t) username tool n s)
        { username := d.username, counts := C } ht h1 hfree'
      by_cases hn : n < 3
      · have hlt : countsLookup C tool < 3 := by rw [h2]; omega
        have heq := hstep.1 hlt
        refine ⟨alist.insert C tool (countsLookup C tool + 1), ?_, ?_, ?_⟩
        · show alist.lookup
            ((check_usage_limit (some t) username tool
              (iterCheck (some t) username tool n s)).2).sessions t = _
          rw [heq]
          exact alist.lookup_insert_self ..
        · unfold countsLookup
          rw [alist.lookup_insert_self]
          simp only [Option.getD_some]
          show countsLookup C tool + 1 = min (n + 1) 3
          rw [h2]
          omega
        · show ((check_usage_limit (some t) username tool
              (iterCheck (some t) username tool n s)).2).users_db = s.users_db
          rw [heq]
          exact h3
      · have hge : 3 ≤ countsLookup C tool := by rw [h2]; omega
        have heq := hstep.2 hge
        refine ⟨C, ?_, ?_, ?_⟩
        · show alist.lookup
            ((check_usage_limit (some t) username tool
              (iterCheck (some t) username tool n s)).2).sessions t = _
          rw [heq]
          exact h1
        · rw [h2]; omega
        · show ((check_usage_limit (some t) username tool
              (iterCheck (some t) username tool n s)).2).users_db = s.users_db
          rw [heq]
          exact h3

theorem resolve_unknown (t : String) (s : AppState)
    (h : alist.lookup s.sessions t = none) :
    get_username_from_session (some t) s = none := by
  by_cases ht : t = "" <;> simp [get_username_from_session, ht, h]

theorem gsd_unknown (t : String) (s : AppState)
    (h : alist.lookup s.sessions t = none) :
    get_session_data (some t) s = (none, s) := by
  by_cases ht : t = "" <;> simp [get_session_data, ht, h]

theorem delete_absent (t : String) (s : AppState)
    (h : alist.lookup s.sessions t = none) :
    delete_session (some t) s = s := by
  by_cases ht : t = "" <;> simp [delete_session, ht, h]

theorem pro_persists_setEntitlementPaid (e name : String) (s : AppState) (r : UserRec)
    (hmem : alist.lookup s.users_db name = some r) (hpro : r.is_pro = true) :
    ∃ r', alist.lookup (setEntitlementPaid e s).users_db name = some r'
      ∧ r'.is_pro = true := by
  unfold setEntitlementPaid
  split
  · by_cases he : e = name
    · subst he
      refine ⟨{ r with is_pro := true }, ?_, rfl⟩
      show alist.lookup (setProTrue s.users_db e) e = _
      rw [lookup_setProTrue_self, hmem]
      rfl
    · refine ⟨r, ?_, hpro⟩
      show alist.lookup (setProTrue s.users_db e) name = some r
      rw [lookup_setProTrue_ne _ _ _ (fun hh => he hh.symm)]
      exact hmem
  · exact ⟨r, hmem, hpro⟩

theorem pro_persists_applyOp (op : Op) (s : AppState) (name : String) (r : UserRec)
    (hmem : alist.lookup s.users_db name = some r) (hpro : r.is_pro = true) :
    ∃ r', alist.lookup (applyOp op s).users_db name = some r' ∧ r'.is_pro = true := by
  cases op with
  | opCreateSession u tok => exact ⟨r, hmem, hpro⟩
  | opLogin u p tok =>
      refine ⟨r, ?_, hpro⟩
      show alist.lookup (login_post u p tok s).2.users_db name = some r
      rw [users_db_login_post]
      exact hmem
  | opRegister u p =>
      by_cases hu : u = name
      · subst hu
        refine ⟨r, ?_, hpro⟩
        have h : (alist.lookup s.users_db u).isSome := by rw [hmem]; rfl
        show alist.lookup (register_post u p s).2.users_db u = some r
        simp [register_post, h]
        exact hmem
      · refine ⟨r, ?_, hpro⟩
        show alist.lookup (register_post u p s).2.users_db name = some r
        unfold register_post
        by_cases h : (alist.lookup s.users_db u).isSome
        · simp [h]
          exact hmem
        · simp [h]
          rw [alist.lookup_insert_ne _ _ _ _ (fun hh => hu hh.symm)]
          exact hmem
  | opLogout sid =>
      refine ⟨r, ?_, hpro⟩
      show alist.lookup (delete_session sid s).users_db name = some r
      rw [users_db_delete_session]
      exact hmem
  | opGetSessionData sid =>
      refine ⟨r, ?_, hpro⟩
      show alist.lookup (get_session_data sid s).2.users_db name = some r
      rw [users_db_get_session_data]
      exact hmem
  | opGetUsageCount sid tool =>
      refine ⟨r, ?_, hpro⟩
      show alist.lookup (get_usage_count sid tool s).2.users_db name = some r
      rw [users_db_get_usage_count]
      exact hmem
  | opIncrementUsage sid tool =>
      refine ⟨r, ?_, hpro⟩
      show alist.lookup (increment_usage sid tool s).2.users_db name = some r
      rw [users_db_increment_usage]
      exact hmem
  | opCheckUsageLimit sid u tool =>
      refine ⟨r, ?_, hpro⟩
      show alist.lookup (check_usage_limit sid u tool s).2.users_db name = some r
      rw [users_db_check_usage_limit]
      exact hmem
  | opCheckout sid pid call => exact ⟨r, hmem, hpro⟩
  | opWebhook vr =>
      cases vr with
      | malformed => exact ⟨r, hmem, hpro⟩
      | badSignature => exact ⟨r, hmem, hpro⟩
      | ok ev =>
          show ∃ r', alist.lookup (stripe_webhook (.ok ev) s).2.users_db name
            = some r' ∧ r'.is_pro = true
          by_cases htype : ev.type = "checkout.session.completed"
          · cases hpy : pyOr ev.customer_email ev.customer_details_email with
            | none =>
                simp [stripe_webhook, htype, hpy]
                exact ⟨r, hmem, hpro⟩
            | some e =>
                by_cases he : e = ""
                · simp [stripe_webhook, htype, hpy, he]
                  exact ⟨r, hmem, hpro⟩
                · simp [stripe_webhook, htype, hpy, he]
                  exact pro_persists_setEntitlementPaid e name s r hmem hpro
          · simp [stripe_webhook, htype]
            exact ⟨r, hmem, hpro⟩

/-! ## Claim theorems -/

/-- C1: for every session (dict record at a non-empty token) whose owning
identity is free-entitlement and every tool, starting from a counter of 0,
the call decision of `check_usage_limit` after `n` prior calls is `Allowed`
for `n < 3` and `LimitReached` from then on, and `get_usage_count` reads
`min n 3` after `n` calls — so the first 3 calls each increment the counter
by exactly 1 and the counter stays pinned at 3 forever. -/
theorem C1_free_tier_quota (t username tool : String) (s : AppState) (d : SessionData)
    (ht : t ≠ "")
    (hsess : alist.lookup s.sessions t = some (.dict d))
    (_hown : d.username = username)
    (hfree : is_user_pro (some username) s = false)
    (hcount : countsLookup d.counts tool = 0) :
    ∀ n : Nat,
      (check_usage_limit (some t) username tool
          (iterCheck (some t) username tool n s)).1
        = (if n < 3 then Decision.Allowed else Decision.LimitReached)
      ∧ (get_usage_count (some t) tool (iterCheck (some t) username tool n s)).1
        = min n 3 := by
  intro n
  obtain ⟨C, h1, h2, h3⟩ := iterCheck_free_inv t username tool s d ht hsess hfree hcount n
  have hfree' : is_user_pro (some username)
      (iterCheck (some t) username tool n s) = false := by
    rw [is_user_pro_congr (some username) _ s h3]
    exact hfree
  have hstep := check_step_free t username tool (iterCheck (some t) username tool n s)
    { username := d.username, counts := C } ht h1 hfree'
  constructor
  · by_cases hn : n < 3
    · have hlt : countsLookup C tool < 3 := by rw [h2]; omega
      rw [hstep.1 hlt]
      simp [hn]
    · have hge : 3 ≤ countsLookup C tool := by rw [h2]; omega
      rw [hstep.2 hge]
      simp [hn]
  · have hgsd : get_session_data (some t) (iterCheck (some t) username tool n s)
        = (some { username := d.username, counts := C },
           iterCheck (some t) username tool n s) := by
      simp [get_session_data, ht, h1]
    simp [get_usage_count, hgsd]
    exact h2

/-- Witness for C1: in the concrete `demoState` (free user `alice`, empty
counters), the 5th call is refused and the counter reads 3. -/
theorem C1_free_tier_quota_witness :
    (check_usage_limit (some "tok") "alice" "sora"
        (iterCheck (some "tok") "alice" "sora" 4 demoState)).1 = Decision.LimitReached
    ∧ (get_usage_count (some "tok") "sora"
        (iterCheck (some "tok") "alice" "sora" 4 demoState)).1 = 3 := by
  have h := C1_free_tier_quota "tok" "alice" "sora" demoState
    { username := "alice", counts := [] }
    (by decide) (by decide) (by decide) (by decide) (by decide) 4
  exact ⟨by simpa using h.1, by simpa using h.2⟩

/-- C2: for an identity whose `is_pro` flag is set, `check_usage_limit`
returns `Allowed` and leaves the state — in particular the session counter
mapping — completely unchanged, for any single call and for any number of
repeated calls. -/
theorem C2_paid_unlimited_no_write (sid : Option String) (username tool : String)
    (s : AppState) (r : UserRec)
    (hmem : alist.lookup s.users_db username = some r)
    (hpro : r.is_pro = true)
    (hne : username ≠ "") :
    check_usage_limit sid username tool s = (.Allowed, s)
    ∧ ∀ n : Nat, iterCheck sid username tool n s = s := by
  have hp : is_user_pro (some username) s = true := by
    simp [is_user_pro, hne, hmem, hpro]
  have h1 : check_usage_limit sid username tool s = (.Allowed, s) := by
    simp [check_usage_limit, hp]
  refine ⟨h1, ?_⟩
  intro n
  induction n with
  | zero => rfl
  | succ n ih =>
      show (check_usage_limit sid username tool (iterCheck sid username tool n s)).2 = s
      rw [ih, h1]

/-- Witness for C2: the paid user `bob` in `demoState` is allowed and the
state is unchanged after one and after 5 calls. -/
theorem C2_paid_unlimited_no_write_witness :
    check_usage_limit (some "tokB") "bob" "sora" demoState = (.Allowed, demoState)
    ∧ iterCheck (some "tokB") "bob" "sora" 5 demoState = demoState := by
  have h := C2_paid_unlimited_no_write (some "tokB") "bob" "sora" demoState
    demoUserPaid (by decide) (by decide) (by decide)
  exact ⟨h.1, h.2 5⟩

/-- C3: the webhook returns status 400 exactly on a malformed payload or a
failed signature check, mutating nothing in that case; every
cryptographically valid event is acknowledged with 200 (even when its
processing is a no-op), and no status other than 400 and 200 occurs. -/
theorem C3_webhook_status_codes (vr : VerifyResult) (s : AppState) :
    ((stripe_webhook vr s).1.status = 400 ↔ vr = .malformed ∨ vr = .badSignature)
    ∧ ((vr = .malformed ∨ vr = .badSignature) → (stripe_webhook vr s).2 = s)
    ∧ (∀ ev, vr = .ok ev → (stripe_webhook vr s).1.status = 200)
    ∧ ((stripe_webhook vr s).1.status = 400 ∨ (stripe_webhook vr s).1.status = 200) := by
  cases vr <;> simp [stripe_webhook]

/-- Witness for C3: a bad signature at `demoState` yields 400 and leaves the
state untouched; a valid event that matches nobody still yields 200. -/
theorem C3_webhook_status_codes_witness :
    (stripe_webhook .badSignature demoState).1.status = 400
    ∧ (stripe_webhook .badSignature demoState).2 = demoState
    ∧ (stripe_webhook
        (.ok { type := "checkout.session.completed",
               customer_email := some "nobody",
               customer_details_email := none }) demoState).1.status = 200 := by
  have h1 := C3_webhook_status_codes .badSignature demoState
  have h2 := C3_webhook_status_codes
    (.ok { type := "checkout.session.completed",
           customer_email := some "nobody",
           customer_details_email := none }) demoState
  exact ⟨h1.1.mpr (Or.inr rfl), h1.2.1 (Or.inr rfl), h2.2.2.1 _ rfl⟩

/-- C4: the webhook's entitlement upgrade is idempotent — applying it twice
equals applying it once, a second application on an already-paid identity
is a no-op success; on a name absent from the registry it silently changes
nothing; and on a present name it leaves the flag true. -/
theorem C4_setEntitlementPaid_idem (name : String) (s : AppState) :
    setEntitlementPaid name (setEntitlementPaid name s) = setEntitlementPaid name s
    ∧ (alist.lookup s.users_db name = none → setEntitlementPaid name s = s)
    ∧ (∀ r, alist.lookup s.users_db name = some r →
        alist.lookup (setEntitlementPaid name s).users_db name
          = some { r with is_pro := true }) := by
  refine ⟨?_, ?_, ?_⟩
  · cases h : alist.lookup s.users_db name with
    | none => simp [setEntitlementPaid, h]
    | some r =>
        have h1 : alist.lookup (setProTrue s.users_db name) name
            = some { r with is_pro := true } := by
          rw [lookup_setProTrue_self, h]
          rfl
        simp [setEntitlementPaid, h, h1, setProTrue_idem]
  · intro h
    simp [setEntitlementPaid, h]
  · intro r h
    have h1 : alist.lookup (setProTrue s.users_db name) name
        = some { r with is_pro := true } := by
      rw [lookup_setProTrue_self, h]
      rfl
    simp [setEntitlementPaid, h, h1]

/-- Witness for C4: concrete idempotence at `alice`, the no-op at an
unregistered name, and the flag landing true. -/
theorem C4_setEntitlementPaid_idem_witness :
    setEntitlementPaid "alice" (setEntitlementPaid "alice" demoState)
      = setEntitlementPaid "alice" demoState
    ∧ setEntitlementPaid "ghost" demoState = demoState
    ∧ alist.lookup (setEntitlementPaid "alice" demoState).users_db "alice"
        = some { demoUserFree with is_pro := true } := by
  have h1 := C4_setEntitlementPaid_idem "alice" demoState
  have h2 := C4_setEntitlementPaid_idem "ghost" demoState
  exact ⟨h1.1, h2.2.1 (by decide), h1.2.2 demoUserFree (by decide)⟩

/-- C5: registering a name already present fails with the duplicate-name
error and leaves the whole registry — in particular the existing record's
password and `is_pro` flag — exactly as it was. -/
theorem C5_register_duplicate (username password : String) (s : AppState) (r : UserRec)
    (hmem : alist.lookup s.users_db username = some r) :
    register_post username password s = (.error "Username already exists", s)
    ∧ alist.lookup (register_post username password s).2.users_db username = some r := by
  have h : (alist.lookup s.users_db username).isSome = true := by rw [hmem]; rfl
  constructor
  · simp [register_post, h]
  · simp [register_post, h]
    exact hmem

/-- Witness for C5: re-registering `alice` with a different password fails
and leaves her original record in place. -/
theorem C5_register_duplicate_witness :
    register_post "alice" "other" demoState
      = (.error "Username already exists", demoState)
    ∧ alist.lookup (register_post "alice" "other" demoState).2.users_db "alice"
        = some demoUserFree := by
  exact C5_register_duplicate "alice" "other" demoState demoUserFree (by decide)

/-- C6: on a valid `checkout.session.completed` event the purchaser email
is `customer_email` with fallback to `customer_details.email` (Python `or`:
an empty string also falls through, and a resulting empty email counts as
absent); when the email is present (truthy) and exactly matches a
registered name, that record's `is_pro` is set (password kept, all other
users and all sessions untouched); otherwise no identity is modified. -/
theorem C6_webhook_email_upgrade (ev : StripeEvent) (s : AppState)
    (htype : ev.type = "checkout.session.completed") :
    ((stripe_webhook (.ok ev) s).2 =
       (match pyOr ev.customer_email ev.customer_details_email with
        | some email => if email = "" then s else setEntitlementPaid email s
        | none => s))
    ∧ (∀ e r, pyOr ev.customer_email ev.customer_details_email = some e → e ≠ "" →
        alist.lookup s.users_db e = some r →
        alist.lookup (stripe_webhook (.ok ev) s).2.users_db e
          = some { r with is_pro := true }
        ∧ (∀ x, x ≠ e →
            alist.lookup (stripe_webhook (.ok ev) s).2.users_db x
              = alist.lookup s.users_db x)
        ∧ (stripe_webhook (.ok ev) s).2.sessions = s.sessions)
    ∧ (∀ e, pyOr ev.customer_email ev.customer_details_email = some e → e ≠ "" →
        alist.lookup s.users_db e = none → (stripe_webhook (.ok ev) s).2 = s)
    ∧ ((pyOr ev.customer_email ev.customer_details_email = none
          ∨ pyOr ev.customer_email ev.customer_details_email = some "") →
        (stripe_webhook (.ok ev) s).2 = s) := by
  have hst : (stripe_webhook (.ok ev) s).2 =
      (match pyOr ev.customer_email ev.customer_details_email with
       | some email => if email = "" then s else setEntitlementPaid email s
       | none => s) := by
    simp [stripe_webhook, htype]
  refine ⟨hst, ?_, ?_, ?_⟩
  · intro e r he hne hr
    have hbody : (stripe_webhook (.ok ev) s).2 = setEntitlementPaid e s := by
      rw [hst, he]
      simp [hne]
    have hs : (alist.lookup s.users_db e).isSome = true := by rw [hr]; rfl
    refine ⟨?_, ?_, ?_⟩
    · rw [hbody]
      simp [setEntitlementPaid, hs]
      rw [lookup_setProTrue_self, hr]
      rfl
    · intro x hx
      rw [hbody]
      simp [setEntitlementPaid, hs]
      exact lookup_setProTrue_ne s.users_db e x hx
    · rw [hbody]
      exact sessions_setEntitlementPaid e s
  · intro e he hne hr
    rw [hst, he]
    simp [hne, setEntitlementPaid, hr]
  · intro h
    cases h with
    | inl h => rw [hst, h]
    | inr h => rw [hst, h]; simp

/-- Witness for C6: an event whose `customer_email` is empty falls back to
`customer_details.email = "alice"`, and alice's flag lands true while bob's
record and all sessions are untouched. -/
theorem C6_webhook_email_upgrade_witness :
    alist.lookup (stripe_webhook
        (.ok { type := "checkout.session.completed",
               customer_email := some "",
               customer_details_email := some "alice" }) demoState).2.users_db "alice"
      = some { demoUserFree with is_pro := true }
    ∧ alist.lookup (stripe_webhook
        (.ok { type := "checkout.session.completed",
               customer_email := some "",
               customer_details_email := some "alice" }) demoState).2.users_db "bob"
      = some demoUserPaid
    ∧ (stripe_webhook
        (.ok { type := "checkout.session.completed",
               customer_email := some "",
               customer_details_email := some "alice" }) demoState).2.sessions
      = demoState.sessions := by
  have h := C6_webhook_email_upgrade
    { type := "checkout.session.completed",
      customer_email := some "",
      customer_details_email := some "alice" } demoState rfl
  have h2 := h.2.1 "alice" demoUserFree (by decide) (by decide) (by decide)
  exact ⟨h2.1, by rw [h2.2.1 "bob" (by decide)]; decide, h2.2.2⟩

/-- C7: after `delete_session token`, both resolvers return nothing —
exactly the behavior on a never-issued token — and `delete_session` is
idempotent, with deletion of an absent token a state-preserving no-op. -/
theorem C7_logout_resolve (t : String) (s : AppState) :
    get_username_from_session (some t) (delete_session (some t) s) = none
    ∧ get_session_data (some t) (delete_session (some t) s)
        = (none, delete_session (some t) s)
    ∧ (∀ s2 : AppState, alist.lookup s2.sessions t = none →
        get_username_from_session (some t) s2 = none)
    ∧ delete_session (some t) (delete_session (some t) s) = delete_session (some t) s
    ∧ (alist.lookup s.sessions t = none → delete_session (some t) s = s) := by
  by_cases ht : t = ""
  · subst ht
    refine ⟨by simp [get_username_from_session, delete_session],
            by simp [get_session_data, delete_session],
            fun s2 h => by simp [get_username_from_session],
            by simp [delete_session],
            fun h => by simp [delete_session]⟩
  · by_cases hl : alist.lookup s.sessions t = none
    · have hds : delete_session (some t) s = s := delete_absent t s hl
      refine ⟨?_, ?_, fun s2 h => resolve_unknown t s2 h, ?_, fun _ => hds⟩
      · rw [hds]; exact resolve_unknown t s hl
      · rw [hds]; exact gsd_unknown t s hl
      · rw [hds, hds]
    · have hsome : (alist.lookup s.sessions t).isSome = true := by
        cases h : alist.lookup s.sessions t with
        | none => exact absurd h hl
        | some v => rfl
      have hds : delete_session (some t) s
          = { s with sessions := alist.erase s.sessions t } := by
        simp [delete_session, ht, hsome]
      have hl2 : alist.lookup (delete_session (some t) s).sessions t = none := by
        rw [hds]
        exact alist.lookup_erase_self s.sessions t
      refine ⟨resolve_unknown t _ hl2, gsd_unknown t _ hl2,
              fun s2 h => resolve_unknown t s2 h,
              delete_absent t _ hl2,
              fun h => absurd h hl⟩

/-- Witness for C7: deleting `tok` in `demoState` makes its resolution
return nothing, deleting it again is a no-op, and deleting a never-issued
token changes nothing. -/
theorem C7_logout_resolve_witness :
    get_username_from_session (some "tok") (delete_session (some "tok") demoState) = none
    ∧ delete_session (some "tok") (delete_session (some "tok") demoState)
        = delete_session (some "tok") demoState
    ∧ delete_session (some "ghost") demoState = demoState := by
  have h1 := C7_logout_resolve "tok" demoState
  have h2 := C7_logout_resolve "ghost" demoState
  exact ⟨h1.1, h1.2.2.2.1, h2.2.2.2.2 (by decide)⟩

/-- C8: login succeeds exactly when the submitted name is registered and
the stored password equals the submitted one; and every failing
combination — unknown name or known name with a wrong password — produces
the identical generic response, never distinguishing the two causes. -/
theorem C8_login_exact_and_generic (username password newToken : String) (s : AppState) :
    ((∃ r, alist.lookup s.users_db username = some r ∧ r.password = password) ↔
       (login_post username password newToken s).1 = .success "/dashboard" newToken)
    ∧ ((¬ ∃ r, alist.lookup s.users_db username = some r ∧ r.password = password) →
        login_post username password newToken s
          = (.failure "Invalid username or password", s))
    ∧ (∀ u1 p1 u2 p2 : String, ∀ r2 : UserRec,
        alist.lookup s.users_db u1 = none →
        alist.lookup s.users_db u2 = some r2 → r2.password ≠ p2 →
        (login_post u1 p1 newToken s).1 = (login_post u2 p2 newToken s).1) := by
  refine ⟨?_, ?_, ?_⟩
  · constructor
    · rintro ⟨r, hr, hp⟩
      simp [login_post, hr, hp, create_session]
    · intro h
      cases hr : alist.lookup s.users_db username with
      | none => simp [login_post, hr] at h
      | some r =>
          by_cases hp : r.password = password
          · exact ⟨r, rfl, hp⟩
          · simp [login_post, hr, hp] at h
  · intro h
    cases hr : alist.lookup s.users_db username with
    | none => simp [login_post, hr]
    | some r =>
        by_cases hp : r.password = password
        · exact absurd ⟨r, hr, hp⟩ h
        · simp [login_post, hr, hp]
  · intro u1 p1 u2 p2 r2 h1 h2 hp
    simp [login_post, h1, h2, hp]

/-- Witness for C8: correct credentials succeed, an unknown user and a
wrong password produce the same generic failure response. -/
theorem C8_login_exact_and_generic_witness :
    (login_post "alice" "pw" "newTok" demoState).1 = .success "/dashboard" "newTok"
    ∧ login_post "ghost" "pw" "newTok" demoState
        = (.failure "Invalid username or password", demoState)
    ∧ (login_post "ghost" "x" "newTok" demoState).1
        = (login_post "alice" "bad" "newTok" demoState).1 := by
  have h := C8_login_exact_and_generic "alice" "pw" "newTok" demoState
  have hg := C8_login_exact_and_generic "ghost" "pw" "newTok" demoState
  refine ⟨h.1.mp ⟨demoUserFree, by decide, by decide⟩, ?_, ?_⟩
  · exact hg.2.1 (by decide)
  · exact h.2.2 "ghost" "x" "alice" "bad" demoUserFree (by decide) (by decide) (by decide)

/-- C9: for a logged-in caller, `create_checkout_session` with
`STRIPE_PRICE_ID` absent from the environment returns the structured
500 JSON error — not a crash — and the flag recording a Stripe call is
false: the payment processor is never contacted. -/
theorem C9_checkout_missing_price (sid : Option String) (s : AppState)
    (call : StripeOutcome) (u : String)
    (hauth : require_login sid s = some u) :
    create_checkout_session sid none call s
      = (.jsonError "PRICE_ID is missing in environment" 500, false) := by
  simp [create_checkout_session, hauth]

/-- Witness for C9: alice's session in `demoState` with no configured price
id gets the 500 config error without any Stripe contact. -/
theorem C9_checkout_missing_price_witness :
    create_checkout_session (some "tok") none (.ok "https://example.test") demoState
      = (.jsonError "PRICE_ID is missing in environment" 500, false) := by
  exact C9_checkout_missing_price (some "tok") demoState (.ok "https://example.test")
    "alice" (by decide)

/-- C10: entitlement is monotone — once an identity's `is_pro` flag is
true, no sequence of the program's entry-point operations (registration,
login, logout, session reads, usage metering, checkout, webhook) ever makes
it false again: the name stays registered with the flag still true. -/
theorem C10_is_pro_monotone (s : AppState) (name : String) (r : UserRec)
    (hmem : alist.lookup s.users_db name = some r) (hpro : r.is_pro = true) :
    ∀ ops : List Op, ∃ r',
      alist.lookup (runOps ops s).users_db name = some r' ∧ r'.is_pro = true := by
  intro ops
  induction ops generalizing s r with
  | nil => exact ⟨r, hmem, hpro⟩
  | cons op rest ih =>
      obtain ⟨r1, hm1, hp1⟩ := pro_persists_applyOp op s name r hmem hpro
      exact ih (applyOp op s) r1 hm1 hp1

/-- Witness for C10: after a register, a failed webhook, a logout and a
metered tool call, `bob` is still paid. -/
theorem C10_is_pro_monotone_witness :
    ∃ r', alist.lookup (runOps
        [.opRegister "carol" "x", .opWebhook .badSignature,
         .opLogout (some "tokB"), .opCheckUsageLimit (some "tok") "alice" "sora"]
        demoState).users_db "bob" = some r' ∧ r'.is_pro = true := by
  exact C10_is_pro_monotone demoState "bob" demoUserPaid (by decide) (by decide)
    [.opRegister "carol" "x", .opWebhook .badSignature,
     .opLogout (some "tokB"), .opCheckUsageLimit (some "tok") "alice" "sora"]

end PromptStudio
